import Mathlib

/-!
Verification of the Relay DynamicToStatic pass
(src/src/relay/transforms/dynamic_to_static.cc).

The pass rewrites calls to the dynamic operators dyn.reshape, dyn.tile and
dyn.topk into their static counterparts whenever the parameter argument
(argument index 1) is a Constant node, clears the declared return type of
every rewritten Function node, and iterates {type inference, constant
folding, one mutation pass} over the enclosing module until the result
stops changing or 1000 rounds have elapsed.

The embedding models the Relay expression nodes the pass touches, the
rule table of DynamicToStaticMutator.Rewrite_, the Function override of
DispatchVisitExpr and the convergence driver DynamicToStatic.  The
external collaborators (MixedModeMutator dispatch, pattern_util helpers,
the FoldConstant and InferType passes, the tvm Map and Array containers)
are not part of the source file and are modelled from the spec where a
claim needs them; each such definition says so in its doc comment.
-/

namespace DynToStatic

/-- Constant tensor value: a rank-tagged flat vector of scalar integers.
Modelled from the spec: the NDArray container itself is external; the spec
describes it as a rank-and-dtype-tagged tensor of scalar integers that the
rewrite rules read element-wise, so we keep the rank and the flat data. -/
structure Tensor where
  ndim : Nat
  data : List Int
deriving DecidableEq, Repr

/-- Operator-specific attribute payloads of the calls the pass touches.
ReshapeAttrs carries newshape and the reverse flag, TileAttrs the reps
vector, TopKAttrs the fields k, axis, ret_type, is_ascend and dtype. -/
inductive Attrs where
  | NoAttrs : Attrs
  | ReshapeAttrs (newshape : List Int) (reverse : Bool) : Attrs
  | TileAttrs (reps : List Int) : Attrs
  | TopKAttrs (k : Int) (axis : Int) (ret_type : String) (is_ascend : Bool)
      (dtype : String) : Attrs
  | OtherAttrs (tag : String) : Attrs
deriving DecidableEq, Repr

mutual

/-- Relay expression nodes relevant to the pass: variables, constants,
tuples, calls (operator name, arguments, attributes, type arguments) and
functions (parameters, body, optional declared return type, type
parameters, function attributes).  Operator identity is interned in tvm,
so equality of the operator name models identity of the Op handle. -/
inductive Expr where
  | Var (name : String) : Expr
  | Constant (data : Tensor) : Expr
  | Tuple (fields : ExprList) : Expr
  | Call (op : String) (args : ExprList) (attrs : Attrs)
      (typeArgs : List String) : Expr
  | Function (params : List String) (body : Expr) (retTy : Option String)
      (typeParams : List String) (funcAttrs : Attrs) : Expr

/-- Argument lists of calls and field lists of tuples (the tvm Array of
expressions). -/
inductive ExprList where
  | nil : ExprList
  | cons (head : Expr) (tail : ExprList) : ExprList

end

deriving instance DecidableEq for Expr, ExprList

/-- Fatal runtime aborts: a failed CHECK / CHECK_EQ and the abort raised
by the tvm containers (Map lookup of an absent key, Array index out of
bounds). -/
inductive Err where
  | CheckFailed (msg : String) : Err
deriving DecidableEq, Repr

def dyn_reshape_op : String := "dyn.reshape"
def dyn_tile_op : String := "dyn.tile"
def dyn_topk_op : String := "dyn.topk"
def reshape_op : String := "reshape"
def tile_op : String := "tile"
def topk_op : String := "topk"

/-- Modelled from the spec: pattern_util.h ToVector is not under src; the
spec says the rules read the constant tensor element-wise as a flat
integer vector, so ToVector returns the flat data. -/
def ToVector (t : Tensor) : List Int := t.data

/-- Modelled from the spec: pattern_util.h ToScalar is not under src; it
reads element i of the flattened constant data without any rank check. -/
def ToScalar (t : Tensor) (i : Nat) : Int := t.data.getD i 0

/-- The rule table DynamicToStaticMutator.Rewrite_ acting on the
post-order-rewritten call.  A dyn.reshape or dyn.tile call whose argument
1 is a Constant is rewritten to the static operator after a CHECK_EQ that
the constant has rank 1; a dyn.topk call whose argument 1 is a Constant
is rewritten after a CHECK that the call attributes are a TopKAttrs
record, copying axis, ret_type, is_ascend and dtype and reading k with
ToScalar.  When argument 1 is not a Constant, or the operator matches no
rule, post is returned unchanged.  Accessing argument 1 of a call with
fewer than two arguments aborts (tvm Array bounds check, modelled from
the spec since the container is external). -/
def Rewrite_ (post : Expr) : Except Err Expr :=
  match post with
  | .Call op args attrs typeArgs =>
      if op = dyn_reshape_op then
        match args with
        | .cons a0 (.cons (.Constant shape) _) =>
            if shape.ndim = 1 then
              .ok (.Call reshape_op (.cons a0 .nil)
                (.ReshapeAttrs (ToVector shape) false) [])
            else .error (.CheckFailed "shape ndim == 1")
        | .cons _ (.cons _ _) => .ok (.Call op args attrs typeArgs)
        | _ => .error (.CheckFailed "array index out of bounds")
      else if op = dyn_tile_op then
        match args with
        | .cons a0 (.cons (.Constant reps) _) =>
            if reps.ndim = 1 then
              .ok (.Call tile_op (.cons a0 .nil) (.TileAttrs (ToVector reps)) [])
            else .error (.CheckFailed "reps ndim == 1")
        | .cons _ (.cons _ _) => .ok (.Call op args attrs typeArgs)
        | _ => .error (.CheckFailed "array index out of bounds")
      else if op = dyn_topk_op then
        match args with
        | .cons a0 (.cons (.Constant k) _) =>
            match attrs with
            | .TopKAttrs _ axis rt asc dt =>
                .ok (.Call topk_op (.cons a0 .nil)
                  (.TopKAttrs (ToScalar k 0) axis rt asc dt) [])
            | _ => .error (.CheckFailed "param")
        | .cons _ (.cons _ _) => .ok (.Call op args attrs typeArgs)
        | _ => .error (.CheckFailed "array index out of bounds")
      else .ok post
  | _ => .ok post

/-- Decides whether a rule of the table fires on the given call: the
operator is one of the three dynamic targets and argument 1 is a
Constant node.  The source expresses this implicitly: Rewrite_ returns
the post object itself exactly when no rule fires, and every fired rule
allocates a fresh Call whose operator is the static one. -/
def ruleFires (post : Expr) : Bool :=
  match post with
  | .Call op args _ _ =>
      (op = dyn_reshape_op || op = dyn_tile_op || op = dyn_topk_op) &&
        (match args with
         | .cons _ (.cons (.Constant _) _) => true
         | _ => false)
  | _ => false

mutual

/-- The mutation traversal applied by DynamicToStaticMutator.Mutate.
Modelled from the spec: the MixedModeMutator machinery (memoized
post-order dispatch, expr_functor) is not under src; per the spec it
rewrites children first, invokes Rewrite_ on every rewritten call, and
returns a node unchanged (identity-preserved, no fresh allocation) when
its children are all unchanged and no rule fires.  The Function case is
the DispatchVisitExpr override from the source: it always constructs a
fresh Function with the declared return type cleared.  The Boolean in
the result records whether the returned node is a freshly allocated one
(true) or the original input node itself (false), which is the object
identity the memoization table and the convergence test observe. -/
def Mutate : Expr → Except Err (Expr × Bool)
  | .Var n => .ok (.Var n, false)
  | .Constant t => .ok (.Constant t, false)
  | .Tuple fs =>
      match MutateList fs with
      | .error e => .error e
      | .ok (fs1, ch) => .ok (if ch then (.Tuple fs1, true) else (.Tuple fs, false))
  | .Call op args attrs tyArgs =>
      match MutateList args with
      | .error e => .error e
      | .ok (args1, ch) =>
          let post := if ch then Expr.Call op args1 attrs tyArgs
                      else Expr.Call op args attrs tyArgs
          match Rewrite_ post with
          | .error e => .error e
          | .ok r => .ok (if ruleFires post then (r, true) else (post, ch))
  | .Function ps b _rt tps fa =>
      match Mutate b with
      | .error e => .error e
      | .ok (b1, _) => .ok (.Function ps b1 none tps fa, true)

/-- Child-list traversal of the mutation engine; the Boolean records
whether any element was replaced by a freshly allocated node. -/
def MutateList : ExprList → Except Err (ExprList × Bool)
  | .nil => .ok (.nil, false)
  | .cons e es =>
      match Mutate e with
      | .error err => .error err
      | .ok (e1, c) =>
          match MutateList es with
          | .error err => .error err
          | .ok (es1, cs) => .ok (.cons e1 es1, c || cs)

end

/-- The values the rule table prints to standard output: the dyn.topk
branch prints the freshly built k attribute (the std::cout statement at
line 67 of the source) after its CHECK on the attribute record passes. -/
def RewriteOut (post : Expr) : List Int :=
  match post with
  | .Call op args attrs _ =>
      if op = dyn_topk_op then
        match args with
        | .cons _ (.cons (.Constant k) _) =>
            match attrs with
            | .TopKAttrs _ _ _ _ _ => [ToScalar k 0]
            | _ => []
        | _ => []
      else []
  | _ => []

/-- A Relay module restricted to what the driver uses: the ordered map
from global variable name to function.  Modelled from the spec: IRModule
is external; the spec describes it as a mapping from a stable function
identifier to a Function supporting point lookup and point update. -/
abbrev Module := List (String × Expr)

/-- The reverse map built by the driver (Map from function to global
variable, filled by iterating the module and calling Set) followed by
the map lookup of f.  Set overwrites, so a later entry with the same
function wins; looking up a function absent from the module aborts (tvm
Map at on a missing key, modelled from the spec since the container is
external). -/
def reverseLookup (m : Module) (f : Expr) : Option String :=
  m.foldl (fun acc kv => if kv.2 = f then some kv.1 else acc) none

/-- Point lookup of a global variable in the module (the expression
m.functions[gv] of the source).  The driver only looks up the
global variable it obtained from reverseLookup and keeps updating, so
the default branch is never reached. -/
def moduleLookup (m : Module) (gv : String) : Expr :=
  match m.find? (fun kv => kv.1 = gv) with
  | some kv => kv.2
  | none => .Var "unbound"

/-- Point update of one function under its identifier, preserving all
other entries (the m.Update call of the source). -/
def moduleUpdate (m : Module) (gv : String) (e : Expr) : Module :=
  m.map (fun kv => if kv.1 = gv then (gv, e) else kv)

/-- One round of the driver body: whole-module type inference, then
whole-module constant folding, then one mutation pass over the target
function, then writing the result back into the module.  The inference
and folding passes are external collaborators; the driver is
parameterized over them as module-to-module functions, as the spec
models them. -/
def driverBody (infer fold : Module → Module) (gv : String) (m : Module) :
    Except Err (Expr × Module) :=
  let m1 := fold (infer m)
  match Mutate (moduleLookup m1 gv) with
  | .error e => .error e
  | .ok (e1, _) => .ok (e1, moduleUpdate m1 gv e1)

/-- The do-while loop of DynamicToStatic: run the body, stop when the
round result equals the previous round result or the round counter has
reached 1000, otherwise continue.  fuel counts the remaining admissible
iterations (999 on entry, so the body runs at most 1000 times); i is the
source round counter, incremented after each body.  The result carries
the final expression and the number of executed rounds. -/
def driverLoop (infer fold : Module → Module) (gv : String) :
    Nat → Expr → Module → Nat → Except Err (Expr × Nat)
  | fuel, expr, m, i =>
      match driverBody infer fold gv m with
      | .error e => .error e
      | .ok (e1, m1) =>
          if e1 = expr then .ok (e1, i + 1)
          else
            match fuel with
            | 0 => .ok (e1, i + 1)
            | fuel1 + 1 => driverLoop infer fold gv fuel1 e1 m1 (i + 1)

/-- The entry point DynamicToStatic: build the reverse map from
functions to global variables, look the target function up in it
(aborting when it is absent from the module), then run the convergence
loop starting from the function with the round counter at zero. -/
def DynamicToStatic (infer fold : Module → Module) (f : Expr) (m : Module) :
    Except Err (Expr × Nat) :=
  match reverseLookup m f with
  | none => .error (.CheckFailed "map key not found")
  | some gv => driverLoop infer fold gv 999 f m 0

/-- Decides whether an expression is a Constant node (the as ConstantNode
test of the source). -/
def isConstantNode : Expr → Bool
  | .Constant _ => true
  | _ => false

/-- Decides whether an attribute payload is a TopKAttrs record (the as
TopKAttrs test of the source). -/
def isTopKAttrs : Attrs → Bool
  | .TopKAttrs _ _ _ _ _ => true
  | _ => false

/-- Claim C1: a dyn.reshape call whose argument 1 is a rank-1 Constant is
rewritten to a static reshape call whose attributes carry newshape equal
to the element-wise contents of the constant and reverse set to false,
whose argument list holds exactly the original data argument, and the
mutation traversal clears the declared return type of the rewritten
enclosing Function. -/
theorem claim1_reshape_specialization (a0 : Expr) (t : Tensor) (rest : ExprList)
    (attrs : Attrs) (ty : List String) (ps : List String) (b b1 : Expr)
    (rt : Option String) (tps : List String) (fa : Attrs) (c : Bool)
    (h1 : t.ndim = 1) (h2 : Mutate b = .ok (b1, c)) :
    Rewrite_ (.Call dyn_reshape_op (.cons a0 (.cons (.Constant t) rest)) attrs ty)
      = .ok (.Call reshape_op (.cons a0 .nil) (.ReshapeAttrs (ToVector t) false) []) ∧
    Mutate (.Function ps b rt tps fa) = .ok (.Function ps b1 none tps fa, true) := by
  constructor
  · simp [Rewrite_, h1]
  · simp [Mutate, h2]

/-- Witness for claim C1 at the concrete shape vector [2, 3]. -/
theorem claim1_witness :
    Rewrite_ (.Call dyn_reshape_op
        (.cons (.Var "x") (.cons (.Constant ⟨1, [2, 3]⟩) .nil)) .NoAttrs [])
      = .ok (.Call reshape_op (.cons (.Var "x") .nil)
          (.ReshapeAttrs [2, 3] false) []) ∧
    Mutate (.Function [] (.Var "y") (some "T") [] .NoAttrs)
      = .ok (.Function [] (.Var "y") none [] .NoAttrs, true) :=
  claim1_reshape_specialization (.Var "x") ⟨1, [2, 3]⟩ .nil .NoAttrs [] []
    (.Var "y") (.Var "y") (some "T") [] .NoAttrs false rfl rfl

/-- Counterexample to claim C2: a dyn.topk call whose argument 1 is a
rank-1 (not rank-0) Constant does not abort; the rewrite proceeds
silently and returns the static topk call, because the topk branch of
the source performs no rank check on the constant. -/
theorem claim2_counterexample :
    (Tensor.mk 1 [5]).ndim ≠ 0 ∧
    Rewrite_ (.Call dyn_topk_op
        (.cons (.Var "x") (.cons (.Constant ⟨1, [5]⟩) .nil))
        (.TopKAttrs 0 0 "both" true "int64") [])
      = .ok (.Call topk_op (.cons (.Var "x") .nil)
          (.TopKAttrs 5 0 "both" true "int64") []) :=
  ⟨by decide, rfl⟩

/-- Claim C2 as amended: the dyn.topk rewrite performs no rank check on
the constant k argument; whatever the rank of the constant (here any
non-scalar rank), provided the call attributes are a TopKAttrs record
the rule proceeds and reads element 0 of the flattened constant data. -/
theorem claim2_amended_no_rank_check (a0 : Expr) (t : Tensor) (rest : ExprList)
    (k0 axis : Int) (rt : String) (asc : Bool) (dt : String) (ty : List String)
    (h : t.ndim ≠ 0) :
    Rewrite_ (.Call dyn_topk_op (.cons a0 (.cons (.Constant t) rest))
        (.TopKAttrs k0 axis rt asc dt) ty)
      = .ok (.Call topk_op (.cons a0 .nil)
          (.TopKAttrs (ToScalar t 0) axis rt asc dt) []) := rfl

/-- Witness for the amended claim C2 at a concrete rank-2 constant. -/
theorem claim2_amended_witness :
    Rewrite_ (.Call dyn_topk_op
        (.cons (.Var "x") (.cons (.Constant ⟨2, [7, 8]⟩) .nil))
        (.TopKAttrs 0 1 "values" false "int32") [])
      = .ok (.Call topk_op (.cons (.Var "x") .nil)
          (.TopKAttrs 7 1 "values" false "int32") []) :=
  claim2_amended_no_rank_check (.Var "x") ⟨2, [7, 8]⟩ .nil 0 1 "values" false
    "int32" [] (by decide)

/-- Claim C7: a dyn.reshape or dyn.tile call whose argument 1 is a
Constant of rank other than 1 aborts fatally through the CHECK_EQ on the
constant rank rather than skipping the rule or proceeding. -/
theorem claim7_rank_check (a0 : Expr) (t : Tensor) (rest : ExprList)
    (attrs : Attrs) (ty : List String) (h : t.ndim ≠ 1) :
    Rewrite_ (.Call dyn_reshape_op (.cons a0 (.cons (.Constant t) rest)) attrs ty)
      = .error (.CheckFailed "shape ndim == 1") ∧
    Rewrite_ (.Call dyn_tile_op (.cons a0 (.cons (.Constant t) rest)) attrs ty)
      = .error (.CheckFailed "reps ndim == 1") := by
  constructor <;> simp [Rewrite_, h, dyn_reshape_op, dyn_tile_op]

/-- Witness for claim C7 at a concrete rank-2 constant. -/
theorem claim7_witness :
    Rewrite_ (.Call dyn_reshape_op
        (.cons (.Var "x") (.cons (.Constant ⟨2, [2, 2]⟩) .nil)) .NoAttrs [])
      = .error (.CheckFailed "shape ndim == 1") ∧
    Rewrite_ (.Call dyn_tile_op
        (.cons (.Var "x") (.cons (.Constant ⟨2, [2, 2]⟩) .nil)) .NoAttrs [])
      = .error (.CheckFailed "reps ndim == 1") :=
  claim7_rank_check (.Var "x") ⟨2, [2, 2]⟩ .nil .NoAttrs [] (by decide)

/-- Claim C8: on a dyn.topk call whose argument 1 is a Constant, the
rewrite aborts fatally when the call attributes are not a TopKAttrs
record, and otherwise the new static topk attributes copy axis,
ret_type, is_ascend and dtype unchanged while k is the scalar read from
the constant. -/
theorem claim8_topk_attrs (a0 : Expr) (t : Tensor) (rest : ExprList)
    (attrs : Attrs) (k0 axis : Int) (rt : String) (asc : Bool) (dt : String)
    (ty : List String) (h : isTopKAttrs attrs = false) :
    Rewrite_ (.Call dyn_topk_op (.cons a0 (.cons (.Constant t) rest)) attrs ty)
      = .error (.CheckFailed "param") ∧
    Rewrite_ (.Call dyn_topk_op (.cons a0 (.cons (.Constant t) rest))
        (.TopKAttrs k0 axis rt asc dt) ty)
      = .ok (.Call topk_op (.cons a0 .nil)
          (.TopKAttrs (ToScalar t 0) axis rt asc dt) []) := by
  refine ⟨?_, rfl⟩
  cases attrs <;>
    simp_all [Rewrite_, isTopKAttrs, dyn_reshape_op, dyn_tile_op, dyn_topk_op]

/-- Witness for claim C8 at concrete inputs. -/
theorem claim8_witness :
    Rewrite_ (.Call dyn_topk_op
        (.cons (.Var "x") (.cons (.Constant ⟨0, [3]⟩) .nil)) .NoAttrs [])
      = .error (.CheckFailed "param") ∧
    Rewrite_ (.Call dyn_topk_op
        (.cons (.Var "x") (.cons (.Constant ⟨0, [3]⟩) .nil))
        (.TopKAttrs 0 (-1) "both" true "int64") [])
      = .ok (.Call topk_op (.cons (.Var "x") .nil)
          (.TopKAttrs 3 (-1) "both" true "int64") []) :=
  claim8_topk_attrs (.Var "x") ⟨0, [3]⟩ .nil .NoAttrs 0 (-1) "both" true
    "int64" [] (by decide)

/-- Claim C4: a call to one of the dynamic target operators whose
argument 1 is not a Constant, and a call whose operator matches no rule,
are both returned unchanged by the rewrite hook: no rule fires and no
static call is built. -/
theorem claim4_passthrough :
    (∀ (op : String) (a0 a1 : Expr) (rest : ExprList) (attrs : Attrs)
        (ty : List String), isConstantNode a1 = false →
      (op = dyn_reshape_op ∨ op = dyn_tile_op ∨ op = dyn_topk_op) →
      Rewrite_ (.Call op (.cons a0 (.cons a1 rest)) attrs ty)
        = .ok (.Call op (.cons a0 (.cons a1 rest)) attrs ty)) ∧
    (∀ (op : String) (args : ExprList) (attrs : Attrs) (ty : List String),
      op ≠ dyn_reshape_op → op ≠ dyn_tile_op → op ≠ dyn_topk_op →
      Rewrite_ (.Call op args attrs ty) = .ok (.Call op args attrs ty)) := by
  constructor
  · intro op a0 a1 rest attrs ty h1 h2
    rcases h2 with h2 | h2 | h2 <;> subst h2 <;> cases a1 <;>
      simp_all [Rewrite_, isConstantNode, dyn_reshape_op, dyn_tile_op, dyn_topk_op]
  · intro op args attrs ty h1 h2 h3
    simp [Rewrite_, h1, h2, h3]

/-- Witness for claim C4: a dyn.reshape call with a variable shape
argument and a call to an unrelated operator both pass through. -/
theorem claim4_witness :
    Rewrite_ (.Call dyn_reshape_op (.cons (.Var "x") (.cons (.Var "s") .nil))
        .NoAttrs [])
      = .ok (.Call dyn_reshape_op (.cons (.Var "x") (.cons (.Var "s") .nil))
          .NoAttrs []) ∧
    Rewrite_ (.Call "add" (.cons (.Var "x") (.cons (.Var "y") .nil)) .NoAttrs [])
      = .ok (.Call "add" (.cons (.Var "x") (.cons (.Var "y") .nil)) .NoAttrs []) :=
  ⟨claim4_passthrough.1 dyn_reshape_op (.Var "x") (.Var "s") .nil .NoAttrs []
      rfl (Or.inl rfl),
    claim4_passthrough.2 "add" (.cons (.Var "x") (.cons (.Var "y") .nil))
      .NoAttrs [] (by decide) (by decide) (by decide)⟩

/-- Claim C6 fails on the code: the dyn.topk branch prints the freshly
built k attribute to standard output (line 67 of the source), so the
traversal has an observable output effect beyond clearing the declared
return type.  At a concrete dyn.topk call with constant k = 5 the
printed output is nonempty. -/
theorem claim6_output_bug :
    RewriteOut (.Call dyn_topk_op
        (.cons (.Var "x") (.cons (.Constant ⟨0, [5]⟩) .nil))
        (.TopKAttrs 0 0 "both" true "int64") []) = [5] ∧
    ([5] : List Int) ≠ [] :=
  ⟨rfl, by decide⟩

/-- Counterexample to claim C9: a Function node whose only child is
unchanged by the traversal and on which no rule fires is nevertheless
rebuilt as a fresh node (the freshness flag is true), because the
DispatchVisitExpr override always constructs a new Function. -/
theorem claim9_counterexample :
    Mutate (.Var "x") = .ok (.Var "x", false) ∧
    Mutate (.Function [] (.Var "x") none [] .NoAttrs)
      = .ok (.Function [] (.Var "x") none [] .NoAttrs, true) :=
  ⟨rfl, rfl⟩

/-- Claim C9 as amended: identity preservation holds for Var, Constant,
Tuple and Call nodes whose children are all unchanged and on which no
rule fires; Function nodes are the exception, being always rebuilt
fresh with the declared return type cleared. -/
theorem claim9_amended_identity (n : String) (t : Tensor) (fs : ExprList)
    (op : String) (args : ExprList) (attrs : Attrs) (ty : List String)
    (ps : List String) (b b1 : Expr) (rt : Option String) (tps : List String)
    (fa : Attrs) (c : Bool)
    (hfs : MutateList fs = .ok (fs, false))
    (hargs : MutateList args = .ok (args, false))
    (hfire : ruleFires (.Call op args attrs ty) = false)
    (hrw : Rewrite_ (.Call op args attrs ty) = .ok (.Call op args attrs ty))
    (hb : Mutate b = .ok (b1, c)) :
    Mutate (.Var n) = .ok (.Var n, false) ∧
    Mutate (.Constant t) = .ok (.Constant t, false) ∧
    Mutate (.Tuple fs) = .ok (.Tuple fs, false) ∧
    Mutate (.Call op args attrs ty) = .ok (.Call op args attrs ty, false) ∧
    Mutate (.Function ps b rt tps fa) = .ok (.Function ps b1 none tps fa, true) := by
  refine ⟨rfl, rfl, ?_, ?_, ?_⟩
  · simp [Mutate, hfs]
  · simp [Mutate, hargs, hrw, hfire]
  · simp [Mutate, hb]

/-- Witness for the amended claim C9 at concrete nodes. -/
theorem claim9_amended_witness :
    Mutate (.Var "v") = .ok (.Var "v", false) ∧
    Mutate (.Constant ⟨1, [4]⟩) = .ok (.Constant ⟨1, [4]⟩, false) ∧
    Mutate (.Tuple (.cons (.Var "a") .nil))
      = .ok (.Tuple (.cons (.Var "a") .nil), false) ∧
    Mutate (.Call "add" (.cons (.Var "a") .nil) .NoAttrs [])
      = .ok (.Call "add" (.cons (.Var "a") .nil) .NoAttrs [], false) ∧
    Mutate (.Function [] (.Var "a") (some "T") [] .NoAttrs)
      = .ok (.Function [] (.Var "a") none [] .NoAttrs, true) :=
  claim9_amended_identity "v" ⟨1, [4]⟩ (.cons (.Var "a") .nil) "add"
    (.cons (.Var "a") .nil) .NoAttrs [] [] (.Var "a") (.Var "a") (some "T")
    [] .NoAttrs false rfl rfl rfl rfl rfl

theorem driverLoop_ok_bounds (infer fold : Module → Module) (gv : String) :
    ∀ (fuel : Nat) (expr : Expr) (m : Module) (i : Nat) (e : Expr) (n : Nat),
      driverLoop infer fold gv fuel expr m i = .ok (e, n) →
      i + 1 ≤ n ∧ n ≤ i + 1 + fuel := by
  intro fuel
  induction fuel with
  | zero =>
      intro expr m i e n h
      rw [driverLoop] at h
      cases hb : driverBody infer fold gv m with
      | error err => rw [hb] at h; exact absurd h (by simp)
      | ok p =>
          obtain ⟨e1, m1⟩ := p
          rw [hb] at h
          by_cases he : e1 = expr <;> simp [he] at h <;> omega
  | succ fuel ih =>
      intro expr m i e n h
      rw [driverLoop] at h
      cases hb : driverBody infer fold gv m with
      | error err => rw [hb] at h; exact absurd h (by simp)
      | ok p =>
          obtain ⟨e1, m1⟩ := p
          rw [hb] at h
          by_cases he : e1 = expr
          · simp [he] at h
            omega
          · simp [he] at h
            have := ih e1 m1 (i + 1) e n h
            omega

/-- Claim C3: the convergence driver terminates on every input, running
at least one and at most 1000 rounds unless a fatal check aborts it, and
the loop stops as soon as the result of a round equals the previous
round result or the round counter reaches the cap. -/
theorem claim3_driver_bounded (infer fold : Module → Module) (f : Expr) (m : Module) :
    ((∃ err, DynamicToStatic infer fold f m = .error err) ∨
      (∃ e n, DynamicToStatic infer fold f m = .ok (e, n) ∧ 1 ≤ n ∧ n ≤ 1000)) ∧
    (∀ (gv : String) (fuel : Nat) (expr : Expr) (mm : Module) (i : Nat)
        (e1 : Expr) (m1 : Module),
      driverBody infer fold gv mm = .ok (e1, m1) → e1 = expr →
      driverLoop infer fold gv fuel expr mm i = .ok (e1, i + 1)) ∧
    (∀ (gv : String) (expr : Expr) (mm : Module) (i : Nat) (e1 : Expr)
        (m1 : Module),
      driverBody infer fold gv mm = .ok (e1, m1) →
      driverLoop infer fold gv 0 expr mm i = .ok (e1, i + 1)) := by
  refine ⟨?_, ?_, ?_⟩
  · cases hr : reverseLookup m f with
    | none => exact Or.inl ⟨.CheckFailed "map key not found", by simp [DynamicToStatic, hr]⟩
    | some gv =>
        cases hres : driverLoop infer fold gv 999 f m 0 with
        | error err => exact Or.inl ⟨err, by simp [DynamicToStatic, hr, hres]⟩
        | ok p =>
            obtain ⟨e, n⟩ := p
            have hb := driverLoop_ok_bounds infer fold gv 999 f m 0 e n hres
            exact Or.inr ⟨e, n, by simp [DynamicToStatic, hr, hres], by omega, by omega⟩
  · intro gv fuel expr mm i e1 m1 hb he
    subst he
    rw [driverLoop, hb]
    simp
  · intro gv expr mm i e1 m1 hb
    rw [driverLoop, hb]
    by_cases he : e1 = expr <;> simp [he]

/-- Witness for claim C3: bounded convergence on a concrete module, an
immediate stop on reaching a fixed point, and a stop at zero remaining
fuel regardless of the comparison. -/
theorem claim3_witness :
    ((∃ err, DynamicToStatic id id (.Var "q") [] = .error err) ∨
      (∃ e n, DynamicToStatic id id (.Var "q") [] = .ok (e, n) ∧ 1 ≤ n ∧ n ≤ 1000)) ∧
    driverLoop id id "g" 5 (.Var "v") [("g", .Var "v")] 0 = .ok (.Var "v", 1) ∧
    driverLoop id id "g" 0 (.Var "w") [("g", .Var "v")] 0 = .ok (.Var "v", 1) :=
  ⟨(claim3_driver_bounded id id (.Var "q") []).1,
    (claim3_driver_bounded id id (.Var "q") []).2.1 "g" 5 (.Var "v")
      [("g", .Var "v")] 0 (.Var "v") [("g", .Var "v")] rfl rfl,
    (claim3_driver_bounded id id (.Var "q") []).2.2 "g" (.Var "w")
      [("g", .Var "v")] 0 (.Var "v") [("g", .Var "v")] rfl⟩

/-- Reference-equality convergence loop of the driver.  Modelled from
the spec: the loop test pre != expr is ObjectRef pointer inequality
(spec 4.1, reference equality is sufficient and intended), and the
freshness flag of Mutate records exactly whether a round result is a
newly allocated object.  The inference and folding collaborators are
modelled as leaving the module unchanged, the reading most favourable
to early convergence; under it the round result is pointer-equal to the
previous round result precisely when the mutation returned its input
node, that is when the flag is false. -/
def driverLoopRef (gv : String) : Nat → Module → Nat → Except Err (Expr × Nat)
  | fuel, m, i =>
      match Mutate (moduleLookup m gv) with
      | .error e => .error e
      | .ok (e1, fresh) =>
          if fresh = false then .ok (e1, i + 1)
          else
            match fuel with
            | 0 => .ok (e1, i + 1)
            | fuel1 + 1 => driverLoopRef gv fuel1 (moduleUpdate m gv e1) (i + 1)

/-- The entry point DynamicToStatic under the reference-equality reading
of the loop test. -/
def DynamicToStaticRef (f : Expr) (m : Module) : Except Err (Expr × Nat) :=
  match reverseLookup m f with
  | none => .error (.CheckFailed "map key not found")
  | some gv => driverLoopRef gv 999 m 0

theorem moduleUpdate_idem (m : Module) (gv : String) (e : Expr) :
    moduleUpdate (moduleUpdate m gv e) gv e = moduleUpdate m gv e := by
  induction m with
  | nil => rfl
  | cons kv m ih =>
      simp only [moduleUpdate, List.map_cons] at ih ⊢
      refine congrArg₂ List.cons ?_ ih
      by_cases h : kv.1 = gv <;> simp [h]

theorem driverLoopRef_stuck (gv : String) (g : Expr) :
    ∀ (fuel : Nat) (m : Module) (i : Nat),
      moduleLookup m gv = g → Mutate g = .ok (g, true) →
      moduleUpdate m gv g = m →
      driverLoopRef gv fuel m i = .ok (g, i + fuel + 1) := by
  intro fuel
  induction fuel with
  | zero =>
      intro m i h1 h2 h3
      rw [driverLoopRef, h1, h2]
      simp
  | succ fuel ih =>
      intro m i h1 h2 h3
      rw [driverLoopRef, h1, h2]
      show driverLoopRef gv fuel (moduleUpdate m gv g) (i + 1)
        = .ok (g, i + (fuel + 1) + 1)
      rw [h3, ih m (i + 1) h1 h2 h3]
      have h4 : i + 1 + fuel + 1 = i + (fuel + 1) + 1 := by omega
      rw [h4]

theorem driverRefCap (f g : Expr) (m : Module) (gv : String)
    (h1 : reverseLookup m f = some gv)
    (h2 : moduleLookup m gv = f)
    (h3 : Mutate f = .ok (g, true))
    (h4 : moduleLookup (moduleUpdate m gv g) gv = g)
    (h5 : Mutate g = .ok (g, true)) :
    DynamicToStaticRef f m = .ok (g, 1000) := by
  rw [DynamicToStaticRef, h1]
  show driverLoopRef gv 999 m 0 = .ok (g, 1000)
  rw [driverLoopRef, h2, h3]
  show driverLoopRef gv 998 (moduleUpdate m gv g) (0 + 1) = .ok (g, 1000)
  exact driverLoopRef_stuck gv g 998 (moduleUpdate m gv g) 1 h4 h5
    (moduleUpdate_idem m gv g)

/-- Counterexample to claim C5: an already fully specialized function
(its body is a bare variable, so no dynamic call with a constant
parameter remains) does not make the driver exit with the round counter
at one: every round rebuilds the Function as a fresh object, the
reference-inequality loop test therefore holds in every round, and the
driver runs the full 1000-round cap. -/
theorem claim5_counterexample :
    DynamicToStaticRef (.Function [] (.Var "x") (some "T") [] .NoAttrs)
      [("main", .Function [] (.Var "x") (some "T") [] .NoAttrs)]
      = .ok (.Function [] (.Var "x") none [] .NoAttrs, 1000) ∧
    (1000 : Nat) ≠ 1 :=
  ⟨driverRefCap (.Function [] (.Var "x") (some "T") [] .NoAttrs)
      (.Function [] (.Var "x") none [] .NoAttrs)
      [("main", .Function [] (.Var "x") (some "T") [] .NoAttrs)] "main"
      rfl rfl rfl rfl rfl,
    by decide⟩

/-- Claim C5 as amended: applying the entry point to an already fully
specialized function does not converge in one round but runs the driver
to its 1000-round cap, because every mutation pass rebuilds the
top-level Function as a freshly allocated node (with the declared
return type cleared), so the round result is never reference-equal to
the previous round result and the loop stops only at the cap. -/
theorem claim5_amended_cap_rounds (f g : Expr) (m : Module) (gv : String)
    (h1 : reverseLookup m f = some gv)
    (h2 : moduleLookup m gv = f)
    (h3 : Mutate f = .ok (g, true))
    (h4 : moduleLookup (moduleUpdate m gv g) gv = g)
    (h5 : Mutate g = .ok (g, true)) :
    DynamicToStaticRef f m = .ok (g, 1000) :=
  driverRefCap f g m gv h1 h2 h3 h4 h5

/-- Witness for the amended claim C5: even a specialized function whose
declared return type is already cleared keeps the driver running for
the full 1000 rounds. -/
theorem claim5_amended_witness :
    DynamicToStaticRef (.Function [] (.Var "x") none [] .NoAttrs)
      [("main", .Function [] (.Var "x") none [] .NoAttrs)]
      = .ok (.Function [] (.Var "x") none [] .NoAttrs, 1000) :=
  claim5_amended_cap_rounds (.Function [] (.Var "x") none [] .NoAttrs)
    (.Function [] (.Var "x") none [] .NoAttrs)
    [("main", .Function [] (.Var "x") none [] .NoAttrs)] "main"
    rfl rfl rfl rfl rfl

theorem reverseLookup_foldl_const (f : Expr) :
    ∀ (m : Module) (acc : Option String), (∀ kv ∈ m, kv.2 ≠ f) →
      m.foldl (fun acc kv => if kv.2 = f then some kv.1 else acc) acc = acc := by
  intro m
  induction m with
  | nil => intro acc _; rfl
  | cons kv m ih =>
      intro acc h
      have hkv : kv.2 ≠ f := h kv (List.mem_cons_self kv m)
      simp only [List.foldl_cons, if_neg hkv]
      exact ih acc fun kv2 h2 => h kv2 (List.mem_cons_of_mem kv h2)

/-- Claim C10: the entry point presupposes that the target function is an
entry of the module: when the function is absent (no module entry maps
to it) the reverse map lookup fails and the pass aborts instead of
returning a specialized function. -/
theorem claim10_requires_module_entry (infer fold : Module → Module) (f : Expr)
    (m : Module) (h : ∀ kv ∈ m, kv.2 ≠ f) :
    reverseLookup m f = none ∧
    DynamicToStatic infer fold f m = .error (.CheckFailed "map key not found") := by
  have hnone : reverseLookup m f = none := reverseLookup_foldl_const f m none h
  exact ⟨hnone, by rw [DynamicToStatic, hnone]⟩

/-- Witness for claim C10: looking up a function absent from a concrete
one-entry module aborts. -/
theorem claim10_witness :
    reverseLookup [("g", .Var "z")] (.Var "w") = none ∧
    DynamicToStatic id id (.Var "w") [("g", .Var "z")]
      = .error (.CheckFailed "map key not found") :=
  claim10_requires_module_entry id id (.Var "w") [("g", .Var "z")] (by decide)

end DynToStatic
